import Mathlib

/-!
Verification of the cadastral line-classifier in `src/app.py` (`parse_pdf`).

The Python function scans an ordered sequence of text lines with a small
mutable state (current section/plan, relevance flag, owner block, address
accumulator, emitted records).  We embed the per-line transition and the
regular-expression tests it uses as executable Lean functions and prove the
specification's claims about them.

Modelling conventions for the Python regexes (`re` module, `str` patterns):
* `\s` is Python's Unicode whitespace class; we model its exact character
  set (`isPySpace`), since the owner-name rule's character class depends on it.
* `\d` and `\w` are modelled over ASCII (`0-9`, `A-Za-z0-9_`); Python also
  accepts non-ASCII Unicode digits/word characters there, which the inputs of
  this document format do not contain.
* `IGNORECASE` literal matching and `str.upper()` are modelled by ASCII case
  mapping (`Char.toLower` / `Char.toUpper`).
* `re.search` is leftmost-match: we scan start positions left to right; at a
  fixed start the greedy/backtracking behaviour of each concrete pattern is
  resolved by hand (comments at each matcher).
-/

namespace Cadatrimmo

/-- Python's whitespace set for `str` patterns and `str.strip()` / `\s`:
0x09-0x0D, 0x1C-0x1F, space, 0x85, 0xA0, 0x1680, 0x2000-0x200A, 0x2028,
0x2029, 0x202F, 0x205F, 0x3000. -/
def isPySpace (c : Char) : Bool :=
  let n := c.toNat
  (9 ≤ n && n ≤ 13) || (28 ≤ n && n ≤ 31) || n = 32 || n = 0x85 || n = 0xA0 ||
  n = 0x1680 || (0x2000 ≤ n && n ≤ 0x200A) || n = 0x2028 || n = 0x2029 ||
  n = 0x202F || n = 0x205F || n = 0x3000

/-- ASCII decimal digit, modelling the regex class `\d`. -/
def isAsciiDigit (c : Char) : Bool :=
  48 ≤ c.toNat && c.toNat ≤ 57

/-- ASCII word character, modelling the regex class `\w`. -/
def isWordChar (c : Char) : Bool :=
  let n := c.toNat
  (65 ≤ n && n ≤ 90) || (97 ≤ n && n ≤ 122) || isAsciiDigit c || n = 95

/-- Python `str.strip()` on a character list: drop leading and trailing
whitespace. -/
def stripList (l : List Char) : List Char :=
  ((l.dropWhile isPySpace).reverse.dropWhile isPySpace).reverse

/-- Python `str.strip()`. -/
def pyStrip (s : String) : String :=
  ⟨stripList s.data⟩

/-- Python `str.upper()`, modelled over ASCII (characterwise `Char.toUpper`). -/
def upperString (s : String) : String :=
  ⟨s.data.map Char.toUpper⟩

/-- Drop a run of `\s*`. -/
def dropSpaces (l : List Char) : List Char :=
  l.dropWhile isPySpace

/-- Case-insensitive literal prefix: `ciPrefix pat l` consumes `pat`
(given in lowercase) from the front of `l`, comparing after ASCII
lowercasing, returning the rest of `l` on success. -/
def ciPrefix : List Char → List Char → Option (List Char)
  | [], l => some l
  | _ :: _, [] => none
  | p :: ps, c :: cs => if c.toLower = p then ciPrefix ps cs else none

/-- Tail of the header pattern, `\s*Plan\s*:\s*(\d+)` with `IGNORECASE`:
skip whitespace, the literal `Plan`, whitespace, a colon, whitespace, then
capture a maximal nonempty digit run (`\d+` is greedy and ends the pattern,
so it captures the maximal run). -/
def planPart (r : List Char) : Option (List Char) :=
  match ciPrefix ['p', 'l', 'a', 'n'] (dropSpaces r) with
  | none => none
  | some r2 =>
    match dropSpaces r2 with
    | ':' :: r4 =>
      let ds := (dropSpaces r4).takeWhile isAsciiDigit
      if ds.isEmpty then none else some ds
    | _ => none

/-- Backtracking for `(\w+)\s*Plan...`: the greedy `\w+` first captures the
whole maximal word run, then gives characters back from its end one at a
time.  `wrev` is the still-captured part reversed (head = last captured
character); `rest` is what follows the capture.  Giving a character back
never lets `\s*` grow (a word character is not whitespace), so each split is
tested directly with `planPart`. -/
def headerTryW : List Char → List Char → Option (List Char × List Char)
  | [], _ => none
  | c :: wrev, rest =>
    match planPart rest with
    | some ds => some ((c :: wrev).reverse, ds)
    | none => headerTryW wrev (c :: rest)

/-- Header pattern anchored at the current position:
`Section\s*:\s*(\w+)\s*Plan\s*:\s*(\d+)` with `IGNORECASE`.
`\s*` runs before literals are deterministic (a whitespace character can
never match the following literal), so only `\w+` backtracks. -/
def headerAt (l : List Char) : Option (List Char × List Char) :=
  match ciPrefix ['s', 'e', 'c', 't', 'i', 'o', 'n'] l with
  | none => none
  | some r =>
    match dropSpaces r with
    | ':' :: r2 =>
      let r3 := dropSpaces r2
      let w := r3.takeWhile isWordChar
      if w.isEmpty then none
      else headerTryW w.reverse (r3.drop w.length)
    | _ => none

/-- Leftmost search for the header pattern (Python `re.search`): try every
start position from the left. -/
def headerSearch : List Char → Option (List Char × List Char)
  | [] => none
  | c :: rest =>
    match headerAt (c :: rest) with
    | some g => some g
    | none => headerSearch rest

/-- `re.search(r"Section\s*:\s*(\w+)\s*Plan\s*:\s*(\d+)", line, re.IGNORECASE)`,
returning the two captured groups. -/
def headerMatch (line : String) : Option (String × String) :=
  match headerSearch line.data with
  | some (g1, g2) => some (⟨g1⟩, ⟨g2⟩)
  | none => none

/-- Lot pattern anchored at the current position: `Lot\s+(\d+)` with
`IGNORECASE`.  After the literal, `\s+` must take at least one whitespace
character and, being greedy, takes the maximal run (shorter runs would put a
whitespace character where `\d` must match); then `\d+` captures the maximal
nonempty digit run. -/
def lotAt (l : List Char) : Option (List Char) :=
  match ciPrefix ['l', 'o', 't'] l with
  | none => none
  | some r =>
    let ws := r.takeWhile isPySpace
    if ws.isEmpty then none
    else
      let ds := (r.drop ws.length).takeWhile isAsciiDigit
      if ds.isEmpty then none else some ds

/-- Leftmost search for the lot pattern. -/
def lotSearch : List Char → Option (List Char)
  | [] => none
  | c :: rest =>
    match lotAt (c :: rest) with
    | some g => some g
    | none => lotSearch rest

/-- `re.search(r"Lot\s+(\d+)", line, re.IGNORECASE)`, returning group 1. -/
def lotMatch (line : String) : Option String :=
  (lotSearch line.data).map String.mk

/-- Fraction pattern anchored at the current position: `(\d+\s*/\s*\d+)`.
Each greedy piece is deterministic: after a maximal digit run, the maximal
whitespace run, then a literal `/` (no backtracking can help, since neither
a digit nor a whitespace character is `/`), again whitespace, and a maximal
nonempty digit run.  The group is the whole match, internal whitespace
included. -/
def tantAt (l : List Char) : Option (List Char) :=
  let ds1 := l.takeWhile isAsciiDigit
  if ds1.isEmpty then none
  else
    let r1 := l.drop ds1.length
    let ws1 := r1.takeWhile isPySpace
    match r1.drop ws1.length with
    | '/' :: r3 =>
      let ws2 := r3.takeWhile isPySpace
      let ds2 := (r3.drop ws2.length).takeWhile isAsciiDigit
      if ds2.isEmpty then none
      else some (ds1 ++ ws1 ++ '/' :: (ws2 ++ ds2))
    | _ => none

/-- Leftmost search for the fraction pattern. -/
def tantSearch : List Char → Option (List Char)
  | [] => none
  | c :: rest =>
    match tantAt (c :: rest) with
    | some g => some g
    | none => tantSearch rest

/-- `re.search(r"(\d+\s*/\s*\d+)", line)`, returning group 1. -/
def tantMatch (line : String) : Option String :=
  (tantSearch line.data).map String.mk

/-- Python `line.replace(" ", "")`: removes space characters (U+0020) only,
no other whitespace. -/
def removeSpaces (s : String) : String :=
  ⟨s.data.filter (fun c => c ≠ ' ')⟩

/-- Character class of the owner-name rule, `[A-Z\s/.'-]`: ASCII uppercase
letters, Python whitespace, and the four literals. -/
def ownerClassChar (c : Char) : Bool :=
  (65 ≤ c.toNat && c.toNat ≤ 90) || isPySpace c ||
  c.toNat = 47 || c.toNat = 46 || c.toNat = 39 || c.toNat = 45

/-- `re.match(r"^[A-Z\s/.'-]{5,}$", line.strip())` as a Boolean.  After
stripping, the string cannot end in a newline, so `$` only matches at the
end; the greedy `{5,}` followed by `$` then holds exactly when the stripped
string has length at least 5 and every character is in the class. -/
def ownerRe (line : String) : Bool :=
  let s := stripList line.data
  decide (5 ≤ s.length) && s.all ownerClassChar

/-- Prefix test for the substring check `"LOT" in line.upper()`. -/
def startsLOT : List Char → Bool
  | 'L' :: 'O' :: 'T' :: _ => true
  | _ => false

/-- Substring occurrence of `LOT`. -/
def hasLOT : List Char → Bool
  | [] => false
  | c :: rest => startsLOT (c :: rest) || hasLOT rest

/-- `"LOT" in line.upper()` (uppercasing modelled over ASCII). -/
def containsLOT (line : String) : Bool :=
  hasLOT (line.data.map Char.toUpper)

/-- `re.search(r"\d", line)` as a Boolean. -/
def containsDigit (line : String) : Bool :=
  line.data.any isAsciiDigit

/-- `re.search(r"[a-zA-Z]", line)` as a Boolean (this class is ASCII-only in
Python too). -/
def containsAlpha (line : String) : Bool :=
  line.data.any (fun c =>
    (65 ≤ c.toNat && c.toNat ≤ 90) || (97 ≤ c.toNat && c.toNat ≤ 122))

/-- One emitted row of the result.  Field names follow the Python dict keys:
`Section`, `Plan`, `N° Lot` (`lotNum`), `Tantièmes` (`tantiemes`),
`Propriétaires` (`proprietaires`), `Adresse Postale Propriétaire`
(`adresse`).  `Section`/`Plan` keep the `Option` of the Python variables,
which start as `None`. -/
structure Record where
  Section : Option String
  Plan : Option String
  lotNum : String
  tantiemes : String
  proprietaires : String
  adresse : String
deriving DecidableEq, Repr

/-- The mutable state of `parse_pdf`'s line loop. -/
structure ParseState where
  current_section : Option String
  current_plan : Option String
  current_proprietaire : List String
  current_adresse : String
  is_in_relevant_parcel : Bool
  data : List Record
deriving DecidableEq, Repr

/-- Initial state of one `parse_pdf` call. -/
def initState : ParseState :=
  { current_section := none
    current_plan := none
    current_proprietaire := []
    current_adresse := ""
    is_in_relevant_parcel := false
    data := [] }

/-- Header branch (`app.py` lines 48-58): commit section (stripped,
uppercased) and plan (stripped), recompute the relevance flag from the
filters, and reset the owner block and the address accumulator. -/
def applyHeader (sections_filtre plans_filtre : List String) (st : ParseState)
    (sec plan : String) : ParseState :=
  let s := upperString (pyStrip sec)
  let p := pyStrip plan
  { current_section := some s
    current_plan := some p
    current_proprietaire := []
    current_adresse := ""
    is_in_relevant_parcel := decide (s ∈ sections_filtre ∧ p ∈ plans_filtre)
    data := st.data }

/-- Lot branch (`app.py` lines 66-79): with both a lot number and a fraction
matched, append a record if the owner block is nonempty (fraction with
spaces removed, owners newline-joined, address stripped); otherwise do
nothing. -/
def emitLot (st : ParseState) (lot_num tant : String) : ParseState :=
  if st.current_proprietaire.isEmpty then st
  else
    { st with data := st.data ++
        [{ Section := st.current_section
           Plan := st.current_plan
           lotNum := lot_num
           tantiemes := removeSpaces tant
           proprietaires := String.intercalate "\n" st.current_proprietaire
           adresse := pyStrip st.current_adresse }] }

/-- Owner and address branches (`app.py` lines 84-100), reached when the lot
branch's condition failed; `lm`/`tm` are the already-computed lot and
fraction match results, re-tested by the owner condition. -/
def ownerOrAddress (st : ParseState) (line : String) (lm tm : Option String) :
    ParseState :=
  if ownerRe line && lm.isNone && tm.isNone && !containsLOT line then
    let st1 :=
      if st.current_adresse = "" then st
      else { st with current_proprietaire := [], current_adresse := "" }
    { st1 with current_proprietaire := st1.current_proprietaire ++ [pyStrip line] }
  else if !st.current_proprietaire.isEmpty && st.current_adresse = "" then
    if containsDigit line && containsAlpha line then
      { st with current_adresse := st.current_adresse ++ pyStrip line ++ "\n" }
    else st
  else st

/-- Body of the `if is_in_relevant_parcel` block: first the lot branch, else
the owner/address branches. -/
def processRelevant (st : ParseState) (line : String) : ParseState :=
  match lotMatch line, tantMatch line with
  | some lot_num, some tant => emitLot st lot_num tant
  | lm, tm => ownerOrAddress st line lm tm

/-- One iteration of the line loop of `parse_pdf`. -/
def processLine (sections_filtre plans_filtre : List String) (st : ParseState)
    (line : String) : ParseState :=
  match headerMatch line with
  | some (sec, plan) => applyHeader sections_filtre plans_filtre st sec plan
  | none =>
    if st.is_in_relevant_parcel then processRelevant st line else st

/-- The whole extraction: fold the line loop over the document's lines (the
pages' text concatenated in order) and return the emitted records in order. -/
def extract (lines : List String) (sections_filtre plans_filtre : List String) :
    List Record :=
  (lines.foldl (processLine sections_filtre plans_filtre) initState).data

/-- Spec-side normalization, following the spec's words "with all internal
whitespace removed": removes every whitespace character, not just spaces.
Used to compare the code's `removeSpaces` against the spec's description. -/
def specStripAllWhitespace (s : String) : String :=
  ⟨s.data.filter (fun c => !isPySpace c)⟩

/-! ### Helper lemmas about the transition function -/

theorem intercalate_pair (a b : String) :
    String.intercalate "\n" [a, b] = a ++ "\n" ++ b := rfl

theorem ownerOrAddress_frame (st : ParseState) (line : String)
    (lm tm : Option String) :
    (ownerOrAddress st line lm tm).current_section = st.current_section ∧
    (ownerOrAddress st line lm tm).current_plan = st.current_plan ∧
    (ownerOrAddress st line lm tm).is_in_relevant_parcel = st.is_in_relevant_parcel ∧
    (ownerOrAddress st line lm tm).data = st.data := by
  unfold ownerOrAddress
  split_ifs <;> simp

theorem emitLot_frame (st : ParseState) (n t : String) :
    (emitLot st n t).current_section = st.current_section ∧
    (emitLot st n t).current_plan = st.current_plan ∧
    (emitLot st n t).is_in_relevant_parcel = st.is_in_relevant_parcel ∧
    (emitLot st n t).current_proprietaire = st.current_proprietaire ∧
    (emitLot st n t).current_adresse = st.current_adresse := by
  unfold emitLot
  split_ifs <;> simp

theorem emitLot_data (st : ParseState) (n t : String) :
    (emitLot st n t).data = st.data ∨
    (emitLot st n t).data = st.data ++
      [{ Section := st.current_section
         Plan := st.current_plan
         lotNum := n
         tantiemes := removeSpaces t
         proprietaires := String.intercalate "\n" st.current_proprietaire
         adresse := pyStrip st.current_adresse }] := by
  unfold emitLot
  split_ifs with h
  · exact Or.inl rfl
  · exact Or.inr rfl

theorem processRelevant_frame (st : ParseState) (line : String) :
    (processRelevant st line).current_section = st.current_section ∧
    (processRelevant st line).current_plan = st.current_plan ∧
    (processRelevant st line).is_in_relevant_parcel = st.is_in_relevant_parcel := by
  unfold processRelevant
  split
  · exact ⟨(emitLot_frame ..).1, (emitLot_frame ..).2.1, (emitLot_frame ..).2.2.1⟩
  · exact ⟨(ownerOrAddress_frame ..).1, (ownerOrAddress_frame ..).2.1,
      (ownerOrAddress_frame ..).2.2.1⟩

theorem processRelevant_data (st : ParseState) (line : String) :
    (processRelevant st line).data = st.data ∨
    ∃ n t, (processRelevant st line).data = st.data ++
      [{ Section := st.current_section
         Plan := st.current_plan
         lotNum := n
         tantiemes := removeSpaces t
         proprietaires := String.intercalate "\n" st.current_proprietaire
         adresse := pyStrip st.current_adresse }] := by
  unfold processRelevant
  split
  · rcases emitLot_data st _ _ with h | h
    · exact Or.inl h
    · exact Or.inr ⟨_, _, h⟩
  · exact Or.inl (ownerOrAddress_frame ..).2.2.2

theorem processLine_not_relevant (sf pf : List String) (st : ParseState)
    (line : String) (hh : headerMatch line = none)
    (hrel : st.is_in_relevant_parcel = false) :
    processLine sf pf st line = st := by
  simp [processLine, hh, hrel]

theorem processLine_owner (sf pf : List String) (st : ParseState) (line : String)
    (hh : headerMatch line = none) (hrel : st.is_in_relevant_parcel = true)
    (ho : ownerRe line = true) (hl : lotMatch line = none)
    (ht : tantMatch line = none) (hL : containsLOT line = false)
    (ha : st.current_adresse = "") :
    processLine sf pf st line =
      { st with current_proprietaire := st.current_proprietaire ++ [pyStrip line] } := by
  simp only [processLine, hh, hrel, if_true]
  simp only [processRelevant, hl, ht]
  unfold ownerOrAddress
  simp [ho, hL, ha, hrel]

theorem processLine_lot (sf pf : List String) (st : ParseState) (line : String)
    (n t : String) (hh : headerMatch line = none)
    (hrel : st.is_in_relevant_parcel = true)
    (hl : lotMatch line = some n) (ht : tantMatch line = some t)
    (hp : ¬ st.current_proprietaire = []) :
    processLine sf pf st line =
      { st with data := st.data ++
          [{ Section := st.current_section
             Plan := st.current_plan
             lotNum := n
             tantiemes := removeSpaces t
             proprietaires := String.intercalate "\n" st.current_proprietaire
             adresse := pyStrip st.current_adresse }] } := by
  simp only [processLine, hh, hrel, if_true]
  simp only [processRelevant, hl, ht]
  unfold emitLot
  rw [if_neg (by simpa [List.isEmpty_iff] using hp)]
  simp [hrel]

/-! ### Filter invariant -/

/-- A record's section/plan pair lies inside the supplied filters. -/
def FilterOk (sf pf : List String) (r : Record) : Prop :=
  ∃ s p, r.Section = some s ∧ r.Plan = some p ∧ s ∈ sf ∧ p ∈ pf

/-- Invariant of the line loop: whenever the relevance flag is set, the
current section/plan are committed values inside the filters, and every
already-emitted record is inside the filters. -/
def StInv (sf pf : List String) (st : ParseState) : Prop :=
  (st.is_in_relevant_parcel = true →
    ∃ s p, st.current_section = some s ∧ st.current_plan = some p ∧
      s ∈ sf ∧ p ∈ pf) ∧
  ∀ r ∈ st.data, FilterOk sf pf r

theorem stInv_processLine (sf pf : List String) (st : ParseState) (line : String)
    (h : StInv sf pf st) : StInv sf pf (processLine sf pf st line) := by
  rcases hh : headerMatch line with _ | ⟨sec, plan⟩
  · by_cases hrel : st.is_in_relevant_parcel = true
    · simp only [processLine, hh, hrel, if_true]
      constructor
      · intro _
        rcases h.1 hrel with ⟨s, p, hs, hp, hsf, hpf⟩
        exact ⟨s, p, by rw [(processRelevant_frame st line).1, hs],
          by rw [(processRelevant_frame st line).2.1, hp], hsf, hpf⟩
      · intro r hr
        rcases processRelevant_data st line with hd | ⟨n, t, hd⟩
        · exact h.2 r (hd ▸ hr)
        · rw [hd] at hr
          rcases List.mem_append.mp hr with hr | hr
          · exact h.2 r hr
          · rcases h.1 hrel with ⟨s, p, hs, hp, hsf, hpf⟩
            rcases List.mem_singleton.mp hr with rfl
            exact ⟨s, p, hs, hp, hsf, hpf⟩
    · rw [processLine_not_relevant sf pf st line hh (by simpa using hrel)]
      exact h
  · simp only [processLine, hh, applyHeader]
    constructor
    · intro hrel
      have := of_decide_eq_true hrel
      exact ⟨_, _, rfl, rfl, this.1, this.2⟩
    · exact h.2

theorem stInv_foldl (sf pf : List String) (lines : List String) (st : ParseState)
    (h : StInv sf pf st) :
    StInv sf pf (lines.foldl (processLine sf pf) st) := by
  induction lines generalizing st with
  | nil => exact h
  | cons l ls ih => exact ih _ (stInv_processLine sf pf st l h)

theorem stInv_initState (sf pf : List String) : StInv sf pf initState := by
  constructor
  · intro h
    simp [initState] at h
  · intro r hr
    simp [initState] at hr

theorem extract_filterOk (lines sf pf : List String) (r : Record)
    (hr : r ∈ extract lines sf pf) : FilterOk sf pf r :=
  (stInv_foldl sf pf lines initState (stInv_initState sf pf)).2 r hr

theorem processLine_header (sf pf : List String) (st : ParseState)
    (line sec plan : String) (hh : headerMatch line = some (sec, plan)) :
    processLine sf pf st line = applyHeader sf pf st sec plan := by
  simp only [processLine, hh]

theorem processLine_relevant_general (sf pf : List String) (st : ParseState)
    (line : String) (hh : headerMatch line = none)
    (hrel : st.is_in_relevant_parcel = true) :
    processLine sf pf st line = processRelevant st line := by
  simp only [processLine, hh, hrel, if_true]

theorem processLine_lot_general (sf pf : List String) (st : ParseState)
    (line n t : String) (hh : headerMatch line = none)
    (hrel : st.is_in_relevant_parcel = true)
    (hl : lotMatch line = some n) (ht : tantMatch line = some t) :
    processLine sf pf st line = emitLot st n t := by
  simp only [processLine, hh, hrel, if_true, processRelevant, hl, ht]

theorem pyStrip_empty : pyStrip "" = "" := rfl

/-! ### Concrete documents used in the claims -/

/-- The spec's end-to-end example document. -/
def demoLines : List String :=
  ["Section : AC Plan : 124", "DUPONT JEAN", "1 RUE DE LA PAIX 75001 PARIS",
   "Lot 1  123 / 10000"]

/-- The record the end-to-end example produces. -/
def demoRecord : Record :=
  { Section := some "AC"
    Plan := some "124"
    lotNum := "1"
    tantiemes := "123/10000"
    proprietaires := "DUPONT JEAN"
    adresse := "1 RUE DE LA PAIX 75001 PARIS" }

/-- Scenario for the header-reset property: owner A, address X, new header,
owner B, lot line. -/
def c3Lines : List String :=
  ["Section : AC Plan : 124", "OWNER AAAA", "1 RUE DE LA PAIX 75001 PARIS",
   "Section : AC Plan : 124", "OWNER BBBB", "Lot 1  123 / 10000"]

/-- A lot line whose fraction's internal whitespace consists of tab
characters, which `replace(" ", "")` does not remove. -/
def c4CexLines : List String :=
  ["Section : AC Plan : 124", "OWNER AAAA", "Lot 1 123\t/\t10000"]

/-- A relevant parcel whose header's plan digit string is `124`. -/
def c8aLines : List String :=
  ["Section : AC Plan : 124", "OWNER AAAA", "Lot 1  123 / 10000"]

/-- A relevant parcel whose header's plan digit string is `0124`. -/
def c8bLines : List String :=
  ["Section : AC Plan : 0124", "OWNER AAAA", "Lot 1  123 / 10000"]

/-- State right after a relevant header line, owner block still empty. -/
def relevantEmptyState : ParseState :=
  { current_section := some "AC"
    current_plan := some "124"
    current_proprietaire := []
    current_adresse := ""
    is_in_relevant_parcel := true
    data := [] }

/-- State in a relevant parcel with one accumulated owner name. -/
def relevantOwnerState : ParseState :=
  { current_section := some "AC"
    current_plan := some "124"
    current_proprietaire := ["DUPONT JEAN"]
    current_adresse := ""
    is_in_relevant_parcel := true
    data := [] }

/-! ### The claims -/

/-- C1: every record emitted by `extract` has a `Section` in the section
filter and a `Plan` in the plan filter; no record is emitted for a parcel
whose pair is outside the filters. -/
theorem claim1_no_out_of_filter_leakage (lines sf pf : List String)
    (r : Record) (hr : r ∈ extract lines sf pf) :
    ∃ s p, r.Section = some s ∧ r.Plan = some p ∧ s ∈ sf ∧ p ∈ pf :=
  extract_filterOk lines sf pf r hr

theorem claim1_witness :
    demoRecord ∈ extract demoLines ["AC"] ["124"] ∧
    ∃ s p, demoRecord.Section = some s ∧ demoRecord.Plan = some p ∧
      s ∈ ["AC"] ∧ p ∈ ["124"] :=
  ⟨by decide,
   claim1_no_out_of_filter_leakage demoLines ["AC"] ["124"] demoRecord (by decide)⟩

/-- C2: in a relevant parcel with an empty owner block, a line matching the
lot/share rule is a silent no-op: no record, no error, the whole parsing
state unchanged. -/
theorem claim2_lot_without_owner_is_silent_noop (sf pf : List String)
    (st : ParseState) (line : String) (hh : headerMatch line = none)
    (hrel : st.is_in_relevant_parcel = true)
    (hp : st.current_proprietaire = [])
    (hl : (lotMatch line).isSome = true) (ht : (tantMatch line).isSome = true) :
    processLine sf pf st line = st := by
  rcases Option.isSome_iff_exists.mp hl with ⟨n, hn⟩
  rcases Option.isSome_iff_exists.mp ht with ⟨t, htt⟩
  rw [processLine_lot_general sf pf st line n t hh hrel hn htt]
  unfold emitLot
  rw [if_pos (by simp [hp])]

theorem claim2_witness :
    processLine ["AC"] ["124"] relevantEmptyState "Lot 1  123 / 10000" =
      relevantEmptyState :=
  claim2_lot_without_owner_is_silent_noop ["AC"] ["124"] relevantEmptyState
    "Lot 1  123 / 10000" (by decide) (by decide) (by decide) (by decide) (by decide)

/-- C3: a header line always resets the owner block to empty and the address
accumulator to the empty string, whatever the prior state; and in the
owner-A/address-X/header/owner-B/lot scenario the single emitted record has
Owners `OWNER BBBB` and an empty PostalAddress. -/
theorem claim3_header_resets_owner_state :
    (∀ sf pf st line sec plan, headerMatch line = some (sec, plan) →
      (processLine sf pf st line).current_proprietaire = [] ∧
      (processLine sf pf st line).current_adresse = "") ∧
    (extract c3Lines ["AC"] ["124"]).map (fun r => (r.proprietaires, r.adresse)) =
      [("OWNER BBBB", "")] := by
  constructor
  · intro sf pf st line sec plan hh
    rw [processLine_header sf pf st line sec plan hh]
    exact ⟨rfl, rfl⟩
  · decide

theorem claim3_witness :
    ((processLine ["AC"] ["124"] relevantOwnerState "Section : AC Plan : 124").current_proprietaire = [] ∧
     (processLine ["AC"] ["124"] relevantOwnerState "Section : AC Plan : 124").current_adresse = "") :=
  claim3_header_resets_owner_state.1 ["AC"] ["124"] relevantOwnerState
    "Section : AC Plan : 124" "AC" "124" (by decide)

/-- C4 as stated is false: the code removes only space characters (U+0020)
from the matched fraction (`replace(" ", "")`), not all internal whitespace.
On a lot line whose fraction is separated by tabs, the stored value keeps
the tabs and is not of the form `N/D`. -/
theorem claim4_counterexample :
    (extract c4CexLines ["AC"] ["124"]).map Record.tantiemes = ["123\t/\t10000"] ∧
    specStripAllWhitespace "123\t/\t10000" = "123/10000" ∧
    ("123\t/\t10000" : String) ≠ "123/10000" :=
  ⟨by decide, by decide, by decide⟩

/-- C4 (amended): for every matched lot/share line, the stored ShareFraction
equals the matched fraction token with its space characters (U+0020)
removed — other whitespace is kept; for tokens whose internal whitespace is
spaces, such as the input fraction " 123 / 10000 ", the stored value is
"123/10000". -/
theorem claim4_fraction_space_removal (sf pf : List String) (st : ParseState)
    (line n t : String) (hh : headerMatch line = none)
    (hrel : st.is_in_relevant_parcel = true)
    (hp : ¬ st.current_proprietaire = [])
    (hl : lotMatch line = some n) (ht : tantMatch line = some t) :
    (processLine sf pf st line).data.map Record.tantiemes =
      st.data.map Record.tantiemes ++ [removeSpaces t] ∧
    (tantMatch " 123 / 10000 " = some "123 / 10000" ∧
     removeSpaces "123 / 10000" = "123/10000") := by
  constructor
  · rw [processLine_lot sf pf st line n t hh hrel hl ht hp]
    simp
  · exact ⟨by decide, by decide⟩

theorem claim4_witness :
    ((processLine ["AC"] ["124"] relevantOwnerState "Lot 1  123 / 10000").data.map
        Record.tantiemes =
      relevantOwnerState.data.map Record.tantiemes ++ [removeSpaces "123 / 10000"]) ∧
    (tantMatch " 123 / 10000 " = some "123 / 10000" ∧
     removeSpaces "123 / 10000" = "123/10000") :=
  claim4_fraction_space_removal ["AC"] ["124"] relevantOwnerState
    "Lot 1  123 / 10000" "1" "123 / 10000" (by decide) (by decide) (by decide)
    (by decide) (by decide)

/-- C5: the spec's end-to-end example — with filters `{AC}`/`{124}` exactly
one record with the listed six fields; with plan filter `{125}` no record. -/
theorem claim5_end_to_end_example :
    extract demoLines ["AC"] ["124"] = [demoRecord] ∧
    extract demoLines ["AC"] ["125"] = [] :=
  ⟨by decide, by decide⟩

/-- C6: starting from a fresh relevant parcel, two consecutive owner-name
lines accumulate in the same owner block, and a following lot/share line
yields exactly one new record whose Owners field is the two stripped names
joined by a newline. -/
theorem claim6_two_owner_lines_one_record (sf pf : List String)
    (st : ParseState) (l1 l2 l3 n t : String)
    (hrel : st.is_in_relevant_parcel = true)
    (hp0 : st.current_proprietaire = []) (ha0 : st.current_adresse = "")
    (h1h : headerMatch l1 = none) (h1o : ownerRe l1 = true)
    (h1l : lotMatch l1 = none) (h1t : tantMatch l1 = none)
    (h1L : containsLOT l1 = false)
    (h2h : headerMatch l2 = none) (h2o : ownerRe l2 = true)
    (h2l : lotMatch l2 = none) (h2t : tantMatch l2 = none)
    (h2L : containsLOT l2 = false)
    (h3h : headerMatch l3 = none) (h3l : lotMatch l3 = some n)
    (h3t : tantMatch l3 = some t) :
    (processLine sf pf (processLine sf pf st l1) l2).current_proprietaire =
      [pyStrip l1, pyStrip l2] ∧
    (processLine sf pf (processLine sf pf (processLine sf pf st l1) l2) l3).data =
      st.data ++
        [{ Section := st.current_section
           Plan := st.current_plan
           lotNum := n
           tantiemes := removeSpaces t
           proprietaires := pyStrip l1 ++ "\n" ++ pyStrip l2
           adresse := "" }] := by
  have e1 : processLine sf pf st l1 =
      { st with current_proprietaire := st.current_proprietaire ++ [pyStrip l1] } :=
    processLine_owner sf pf st l1 h1h hrel h1o h1l h1t h1L ha0
  rw [e1, hp0]
  have e2 : processLine sf pf
      { st with current_proprietaire := [] ++ [pyStrip l1] } l2 =
      { st with current_proprietaire := ([] ++ [pyStrip l1]) ++ [pyStrip l2] } :=
    processLine_owner sf pf _ l2 h2h hrel h2o h2l h2t h2L ha0
  rw [e2]
  have e3 : processLine sf pf
      { st with current_proprietaire := ([] ++ [pyStrip l1]) ++ [pyStrip l2] } l3 =
      { st with
        current_proprietaire := ([] ++ [pyStrip l1]) ++ [pyStrip l2]
        data := st.data ++
          [{ Section := st.current_section
             Plan := st.current_plan
             lotNum := n
             tantiemes := removeSpaces t
             proprietaires := String.intercalate "\n" (([] ++ [pyStrip l1]) ++ [pyStrip l2])
             adresse := pyStrip st.current_adresse }] } :=
    processLine_lot sf pf _ l3 n t h3h hrel h3l h3t (by simp)
  rw [e3]
  refine ⟨by simp, ?_⟩
  simp [ha0, pyStrip_empty, intercalate_pair]

theorem claim6_witness :
    ((processLine ["AC"] ["124"]
        (processLine ["AC"] ["124"] relevantEmptyState "DUPONT JEAN")
        "MARTIN PIERRE").current_proprietaire =
      [pyStrip "DUPONT JEAN", pyStrip "MARTIN PIERRE"]) ∧
    ((processLine ["AC"] ["124"]
        (processLine ["AC"] ["124"]
          (processLine ["AC"] ["124"] relevantEmptyState "DUPONT JEAN")
          "MARTIN PIERRE")
        "Lot 1  123 / 10000").data =
      relevantEmptyState.data ++
        [{ Section := relevantEmptyState.current_section
           Plan := relevantEmptyState.current_plan
           lotNum := "1"
           tantiemes := removeSpaces "123 / 10000"
           proprietaires := pyStrip "DUPONT JEAN" ++ "\n" ++ pyStrip "MARTIN PIERRE"
           adresse := "" }]) :=
  claim6_two_owner_lines_one_record ["AC"] ["124"] relevantEmptyState
    "DUPONT JEAN" "MARTIN PIERRE" "Lot 1  123 / 10000" "1" "123 / 10000"
    (by decide) (by decide) (by decide) (by decide) (by decide) (by decide)
    (by decide) (by decide) (by decide) (by decide) (by decide) (by decide)
    (by decide) (by decide) (by decide) (by decide)

/-- C7: a line matching the lot/share rule leaves the owner block, the
address accumulator, the current section/plan and the relevance flag
unchanged; only the record sequence may grow (by at most one appended
record). -/
theorem claim7_lot_line_frame (sf pf : List String) (st : ParseState)
    (line : String) (hh : headerMatch line = none)
    (hl : (lotMatch line).isSome = true) (ht : (tantMatch line).isSome = true) :
    (processLine sf pf st line).current_proprietaire = st.current_proprietaire ∧
    (processLine sf pf st line).current_adresse = st.current_adresse ∧
    (processLine sf pf st line).current_section = st.current_section ∧
    (processLine sf pf st line).current_plan = st.current_plan ∧
    (processLine sf pf st line).is_in_relevant_parcel = st.is_in_relevant_parcel ∧
    ((processLine sf pf st line).data = st.data ∨
      ∃ r, (processLine sf pf st line).data = st.data ++ [r]) := by
  by_cases hrel : st.is_in_relevant_parcel = true
  · rcases Option.isSome_iff_exists.mp hl with ⟨n, hn⟩
    rcases Option.isSome_iff_exists.mp ht with ⟨t, htt⟩
    rw [processLine_lot_general sf pf st line n t hh hrel hn htt]
    refine ⟨(emitLot_frame ..).2.2.2.1, (emitLot_frame ..).2.2.2.2,
      (emitLot_frame ..).1, (emitLot_frame ..).2.1, (emitLot_frame ..).2.2.1, ?_⟩
    rcases emitLot_data st n t with h | h
    · exact Or.inl h
    · exact Or.inr ⟨_, h⟩
  · rw [processLine_not_relevant sf pf st line hh (by simpa using hrel)]
    exact ⟨rfl, rfl, rfl, rfl, rfl, Or.inl rfl⟩

theorem claim7_witness :
    ((processLine ["AC"] ["124"] relevantOwnerState "Lot 1  123 / 10000").current_proprietaire =
      relevantOwnerState.current_proprietaire ∧
     (processLine ["AC"] ["124"] relevantOwnerState "Lot 1  123 / 10000").current_adresse =
      relevantOwnerState.current_adresse ∧
     (processLine ["AC"] ["124"] relevantOwnerState "Lot 1  123 / 10000").current_section =
      relevantOwnerState.current_section ∧
     (processLine ["AC"] ["124"] relevantOwnerState "Lot 1  123 / 10000").current_plan =
      relevantOwnerState.current_plan ∧
     (processLine ["AC"] ["124"] relevantOwnerState "Lot 1  123 / 10000").is_in_relevant_parcel =
      relevantOwnerState.is_in_relevant_parcel ∧
     ((processLine ["AC"] ["124"] relevantOwnerState "Lot 1  123 / 10000").data =
        relevantOwnerState.data ∨
      ∃ r, (processLine ["AC"] ["124"] relevantOwnerState "Lot 1  123 / 10000").data =
        relevantOwnerState.data ++ [r])) :=
  claim7_lot_line_frame ["AC"] ["124"] relevantOwnerState "Lot 1  123 / 10000"
    (by decide) (by decide) (by decide)

/-- C8: plan filtering is exact string comparison with no numeric
normalization: a parcel whose header carries plan `124` emits nothing under
the plan filter `{0124}`, a parcel with plan `0124` emits nothing under
`{124}`, while the former does emit under the exact filter `{124}`. -/
theorem claim8_plan_filter_exact_string :
    extract c8aLines ["AC"] ["0124"] = [] ∧
    extract c8bLines ["AC"] ["124"] = [] ∧
    extract c8aLines ["AC"] ["124"] ≠ [] :=
  ⟨by decide, by decide, by decide⟩

/-- C9: before the first header line nothing happens — folding the loop over
any header-free line sequence leaves the initial state untouched (no record,
no owner or address accumulation) — and every emitted record's Section and
Plan are non-null. -/
theorem claim9_nothing_before_first_header :
    (∀ lines sf pf : List String, (∀ l ∈ lines, headerMatch l = none) →
      lines.foldl (processLine sf pf) initState = initState) ∧
    (∀ lines sf pf : List String, ∀ r ∈ extract lines sf pf,
      r.Section.isSome = true ∧ r.Plan.isSome = true) := by
  constructor
  · intro lines sf pf
    induction lines with
    | nil => intro _; rfl
    | cons l ls ih =>
      intro hall
      have h1 : processLine sf pf initState l = initState :=
        processLine_not_relevant sf pf initState l (hall l (by simp)) rfl
      simp only [List.foldl_cons, h1]
      exact ih fun x hx => hall x (by simp [hx])
  · intro lines sf pf r hr
    rcases extract_filterOk lines sf pf r hr with ⟨s, p, hs, hp, _, _⟩
    rw [hs, hp]
    exact ⟨rfl, rfl⟩

theorem claim9_witness :
    (["DUPONT JEAN", "Lot 1  123 / 10000"].foldl (processLine ["AC"] ["124"])
        initState = initState) ∧
    (demoRecord.Section.isSome = true ∧ demoRecord.Plan.isSome = true) :=
  ⟨claim9_nothing_before_first_header.1 ["DUPONT JEAN", "Lot 1  123 / 10000"]
      ["AC"] ["124"] (by decide),
   claim9_nothing_before_first_header.2 demoLines ["AC"] ["124"] demoRecord
      (by decide)⟩

/-- C10 is false as stated ("accepts only ASCII characters"): the class
`[A-Z\s/.'-]` contains Python's whole whitespace class, and `\s` matches
non-ASCII whitespace.  A line whose words are separated by a no-break space
(U+00A0) matches the owner-name rule and is appended to the owner block,
although it contains a character above ASCII. -/
theorem claim10_counterexample :
    ownerRe "DUPONT\u00A0JEAN" = true ∧
    '\u00A0' ∈ (pyStrip "DUPONT\u00A0JEAN").data ∧
    127 < '\u00A0'.toNat ∧
    (processLine ["AC"] ["124"] relevantEmptyState "DUPONT\u00A0JEAN").current_proprietaire =
      [pyStrip "DUPONT\u00A0JEAN"] :=
  ⟨by decide, by decide, by decide, by decide⟩

/-- C10 (amended): the owner-name rule's character class is `[A-Z\s/.'-]`
with `\s` Python's whitespace class (so the rule is not ASCII-only: it also
accepts non-ASCII whitespace such as U+00A0); a stripped line containing
any character outside that class — for example an accented uppercase letter
such as `É`, or any digit — never matches the owner-name rule and is never
appended to the owner block. -/
theorem claim10_owner_rule_ascii_only (line : String) (c : Char)
    (hc : c ∈ (pyStrip line).data) (hcl : ownerClassChar c = false) :
    ownerRe line = false ∧
    ∀ sf pf : List String, ∀ st : ParseState, headerMatch line = none →
      (processLine sf pf st line).current_proprietaire = st.current_proprietaire := by
  have hc' : c ∈ stripList line.data := hc
  have hall : (stripList line.data).all ownerClassChar = false := by
    cases hA : (stripList line.data).all ownerClassChar
    · rfl
    · exact absurd (List.all_eq_true.mp hA c hc') (by simp [hcl])
  have hre : ownerRe line = false := by
    unfold ownerRe
    simp [hall]
  refine ⟨hre, ?_⟩
  intro sf pf st hh
  by_cases hrel : st.is_in_relevant_parcel = true
  · rw [processLine_relevant_general sf pf st line hh hrel]
    unfold processRelevant
    split
    · exact (emitLot_frame ..).2.2.2.1
    · unfold ownerOrAddress
      rw [if_neg (by simp [hre])]
      split_ifs <;> rfl
  · rw [processLine_not_relevant sf pf st line hh (by simpa using hrel)]

theorem claim10_witness :
    ownerRe "ÉMILE DURAND" = false ∧
    (processLine ["AC"] ["124"] relevantEmptyState "ÉMILE DURAND").current_proprietaire =
      relevantEmptyState.current_proprietaire := by
  have h := claim10_owner_rule_ascii_only "ÉMILE DURAND" 'É' (by decide) (by decide)
  exact ⟨h.1, h.2 ["AC"] ["124"] relevantEmptyState (by decide)⟩

end Cadatrimmo
